import Mathlib

/-!
Shallow embedding of the scheduling and persistence logic of the reminder
mobile application (the Trigger Calculator, the Reminder Store save path,
and the Persistence Adapter load/repair path), together with theorems
settling the specification claims about them.

Time is modelled as milliseconds since an epoch (a `Nat`); a JavaScript
`Date` value carries exactly such a millisecond timestamp, and the local
calendar day of an instant `t` is `t / msPerDay` with wall-clock offset
`t % msPerDay` (daylight-saving shifts are outside the model, as they are
outside the specification).
-/

namespace ReminderApp

/-- `type NoteType = 'todo' | 'text'` -/
inductive NoteType where
  | todo
  | text
deriving DecidableEq, Repr

/-- `type RepeatOption = 'once' | 'daily' | 'weekly' | 'custom'` -/
inductive RepeatOption where
  | once
  | daily
  | weekly
  | custom
deriving DecidableEq, Repr

/-- `type TodoItem = { id: string; text: string; done: boolean }` -/
structure TodoItem where
  id : String
  text : String
  done : Bool
deriving DecidableEq, Repr

/-- The `Reminder` record.  `reminderTime` is stored in the source as an
ISO-8601 string; the encoding is injective, so it is modelled by the
underlying millisecond timestamp. -/
structure Reminder where
  id : String
  title : String
  reminderTime : Nat
  «repeat» : RepeatOption
  customRepeatMinutes : Option Nat
  noteType : NoteType
  notes : String
  todoItems : List TodoItem
  notificationId : Option String
  completed : Bool
deriving DecidableEq, Repr

/-- `const MIN_CUSTOM_REPEAT_MINUTES = 30` -/
def MIN_CUSTOM_REPEAT_MINUTES : Nat := 30

def msPerMinute : Nat := 60000

def msPerDay : Nat := 24 * 60 * 60 * 1000

/-- Milliseconds after local midnight of the wall-clock time-of-day
`hours:minutes` (what `Date.setHours(h, m, 0, 0)` installs). -/
def timeOfDayMs (hours minutes : Nat) : Nat :=
  (hours * 60 + minutes) * msPerMinute

/-- Local midnight of the day containing instant `t`. -/
def startOfDay (t : Nat) : Nat := (t / msPerDay) * msPerDay

/-- Index of the local calendar day containing instant `t`. -/
def dayIndex (t : Nat) : Nat := t / msPerDay

/-- `getNextReminderDate(selectedTime)`: copy `now` into `next`, apply
`next.setHours(h, m, 0, 0)` (keep the current date, install the selected
wall-clock time, zero seconds and milliseconds), and if `next <= now`
advance `next` by one calendar day. -/
def getNextReminderDate (hours minutes : Nat) (now : Nat) : Nat :=
  if startOfDay now + timeOfDayMs hours minutes ≤ now then
    startOfDay now + timeOfDayMs hours minutes + msPerDay
  else
    startOfDay now + timeOfDayMs hours minutes

theorem timeOfDayMs_lt (hours minutes : Nat) (hh : hours < 24) (hm : minutes < 60) :
    timeOfDayMs hours minutes < msPerDay := by
  unfold timeOfDayMs msPerMinute msPerDay
  omega

/-- C1: the computed instant has seconds and milliseconds zero, carries the
selected wall-clock time-of-day, and falls on today when today-at-T is
strictly in the future and on tomorrow otherwise. -/
theorem getNextReminderDate_spec (hours minutes now : Nat)
    (hh : hours < 24) (hm : minutes < 60) :
    getNextReminderDate hours minutes now % msPerMinute = 0 ∧
    getNextReminderDate hours minutes now % msPerDay = timeOfDayMs hours minutes ∧
    (now < startOfDay now + timeOfDayMs hours minutes →
      getNextReminderDate hours minutes now =
        startOfDay now + timeOfDayMs hours minutes ∧
      dayIndex (getNextReminderDate hours minutes now) = dayIndex now) ∧
    (startOfDay now + timeOfDayMs hours minutes ≤ now →
      getNextReminderDate hours minutes now =
        startOfDay now + timeOfDayMs hours minutes + msPerDay ∧
      dayIndex (getNextReminderDate hours minutes now) = dayIndex now + 1) := by
  unfold getNextReminderDate dayIndex startOfDay timeOfDayMs msPerMinute msPerDay
  refine ⟨?_, ?_, ?_, ?_⟩ <;> (try intro hside) <;> split <;> omega

/-- Witness for C1 at hours = 9, minutes = 30, now = 0: today-at-9:30 is
strictly in the future, so the result is today at 9:30. -/
theorem getNextReminderDate_spec_witness :
    getNextReminderDate 9 30 0 % msPerMinute = 0 ∧
    getNextReminderDate 9 30 0 % msPerDay = timeOfDayMs 9 30 ∧
    getNextReminderDate 9 30 0 = startOfDay 0 + timeOfDayMs 9 30 ∧
    dayIndex (getNextReminderDate 9 30 0) = dayIndex 0 := by
  have h := getNextReminderDate_spec 9 30 0 (by decide) (by decide)
  exact ⟨h.1, h.2.1, (h.2.2.1 (by decide)).1, (h.2.2.1 (by decide)).2⟩

/-- C2 counterexample: at `now = 0` (midnight, zero seconds and
milliseconds) with selected time 00:00, today-at-T equals `now`, so the
code advances to tomorrow and the distance is exactly 24 hours, not
strictly less. -/
theorem nextInstant_24h_counterexample :
    ¬ (getNextReminderDate 0 0 0 > 0 ∧
       getNextReminderDate 0 0 0 - 0 < msPerDay) := by
  decide

/-- C2 amended: the next trigger instant is strictly after `now`, and its
distance from `now` is at most 24 hours, with equality exactly when `now`
is itself today-at-T with zero seconds and milliseconds. -/
theorem nextInstant_bounds (hours minutes now : Nat)
    (hh : hours < 24) (hm : minutes < 60) :
    getNextReminderDate hours minutes now > now ∧
    getNextReminderDate hours minutes now - now ≤ msPerDay ∧
    (getNextReminderDate hours minutes now - now = msPerDay ↔
      now = startOfDay now + timeOfDayMs hours minutes) := by
  unfold getNextReminderDate startOfDay timeOfDayMs msPerMinute msPerDay
  refine ⟨?_, ?_, ?_⟩ <;> split <;> omega

/-- Witness for C2 amended at hours = 9, minutes = 30, now = 0. -/
theorem nextInstant_bounds_witness :
    getNextReminderDate 9 30 0 > 0 ∧
    getNextReminderDate 9 30 0 - 0 ≤ msPerDay :=
  ⟨(nextInstant_bounds 9 30 0 (by decide) (by decide)).1,
   (nextInstant_bounds 9 30 0 (by decide) (by decide)).2.1⟩

/-- `RepeatFrequency` of the notification library: `DAILY` repeats with a
period of 1 day, `WEEKLY` with a period of 7 days. -/
inductive RepeatFrequency where
  | daily
  | weekly
deriving DecidableEq, Repr

/-- Period, in days, of a platform repeat frequency. -/
def freqPeriodDays : RepeatFrequency → Nat
  | .daily => 1
  | .weekly => 7

/-- A device trigger description: either a `TIMESTAMP` trigger (one-shot at
the given instant, optionally recurring with the given frequency, with
`alarmManager.allowWhileIdle`) or an `INTERVAL` trigger repeating every
`interval` minutes starting from its creation, carrying no anchor
instant. -/
inductive Trigger where
  | timestamp (timestamp : Nat) (repeatFrequency : Option RepeatFrequency)
      (allowWhileIdle : Bool)
  | interval (interval : Nat)
deriving DecidableEq, Repr

/-- The trigger built by `scheduleReminderNotification`: `custom` yields an
interval trigger of `customMinutes ?? MIN_CUSTOM_REPEAT_MINUTES` minutes;
otherwise a timestamp trigger at `reminderDate`, given `repeatFrequency`
DAILY for `daily` and WEEKLY for `weekly`. -/
def buildTrigger (rep : RepeatOption) (reminderDate : Nat)
    (customMinutes : Option Nat) : Trigger :=
  match rep with
  | .custom => .interval (customMinutes.getD MIN_CUSTOM_REPEAT_MINUTES)
  | .once => .timestamp reminderDate none true
  | .daily => .timestamp reminderDate (some .daily) true
  | .weekly => .timestamp reminderDate (some .weekly) true

/-- Observable side effects issued by the save / remove paths: user-facing
alert dialogs, `notifee.cancelNotification`, and
`notifee.createTriggerNotification` (which returns the fresh notification
id and attaches `data.reminderId`). -/
inductive Effect where
  | alert (title : String)
  | cancelNotification (id : String)
  | createTriggerNotification (id : String) (reminderId : String) (trigger : Trigger)
deriving DecidableEq, Repr

/-- Environment supplying the ambient nondeterminism of the source:
`Date.now()`, the notification id returned by the notification library for
the single create call a save issues, and the `Math.random`-based fresh id
generators used by the load path. -/
structure Env where
  nowMs : Nat
  freshNotificationId : String
  freshId : String
  legacyItemId : String → String

/-- The composer form state read by `saveReminder`. -/
structure Draft where
  newReminder : String
  selectedHour : Nat
  selectedMinute : Nat
  showNotes : Bool
  noteType : NoteType
  newNotes : String
  draftTodoItems : List TodoItem
  repeatOption : RepeatOption
  customRepeatMinutes : Nat
  editingReminderId : Option String

/-- State of live (not yet cancelled) notification ids after running the
effect trace: `cancelNotification` removes an id (idempotent),
`createTriggerNotification` adds one, alerts change nothing. -/
def applyEffect (live : List String) : Effect → List String
  | .alert _ => live
  | .cancelNotification n => live.filter (fun x => x ≠ n)
  | .createTriggerNotification n _ _ => live ++ [n]

def applyEffects (live : List String) (effects : List Effect) : List String :=
  effects.foldl applyEffect live

/-- JavaScript `String.prototype.trim`: strip leading and trailing
whitespace.  Implemented structurally over the character list so that it
evaluates by reduction. -/
def jsTrim (s : String) : String :=
  ⟨((s.data.dropWhile Char.isWhitespace).reverse.dropWhile Char.isWhitespace).reverse⟩

/-- Character-list worker for `split('\n')`. -/
def splitNlAux : List Char → List Char → List (List Char)
  | [], acc => [acc.reverse]
  | c :: cs, acc =>
    if c = '\n' then acc.reverse :: splitNlAux cs []
    else splitNlAux cs (c :: acc)

/-- JavaScript `notes.split('\n')`: the segments between line breaks, in
order; the empty string yields one empty segment. -/
def jsSplitOnNewline (s : String) : List String :=
  (splitNlAux s.data []).map (fun cs => ⟨cs⟩)

/-- `const effectiveNoteType = showNotes ? noteType : 'text'` -/
def effectiveNoteTypeOf (d : Draft) : NoteType :=
  if d.showNotes = true then d.noteType else .text

/-- `const effectiveCustomRepeatMinutes = repeatOption === 'custom' ?
Math.max(customRepeatMinutes, MIN_CUSTOM_REPEAT_MINUTES) : undefined` -/
def effectiveCustomRepeatMinutesOf (d : Draft) : Option Nat :=
  if d.repeatOption = .custom then
    some (max d.customRepeatMinutes MIN_CUSTOM_REPEAT_MINUTES)
  else none

/-- The advisory alert issued when a custom repeat below the minimum is
clamped. -/
def customAlertsOf (d : Draft) : List Effect :=
  if d.repeatOption = .custom ∧ d.customRepeatMinutes < MIN_CUSTOM_REPEAT_MINUTES then
    [.alert "Custom repeat updated"]
  else []

/-- `const notes = showNotes && effectiveNoteType === 'text' ?
newNotes.trim() : ''` -/
def notesOf (d : Draft) : String :=
  if d.showNotes = true ∧ effectiveNoteTypeOf d = .text then jsTrim d.newNotes else ""

/-- `const todoItems = showNotes && effectiveNoteType === 'todo' ?
draftTodoItems.map(item => ({...item})) : []` (the spread copy is the
identity on the record values). -/
def todoItemsOf (d : Draft) : List TodoItem :=
  if d.showNotes = true ∧ effectiveNoteTypeOf d = .todo then d.draftTodoItems else []

/-- The trigger passed to `notifee.createTriggerNotification` by a save. -/
def scheduledTrigger (env : Env) (d : Draft) : Trigger :=
  buildTrigger d.repeatOption
    (getNextReminderDate d.selectedHour d.selectedMinute env.nowMs)
    (effectiveCustomRepeatMinutesOf d)

/-- The in-place replacement applied to each collection entry on the edit
path: the entry whose id is `editingId` gets the new field values and the
fresh notification id, every other entry is untouched. -/
def editedReminder (env : Env) (d : Draft) (editingId : String) (r : Reminder) :
    Reminder :=
  if r.id = editingId then
    { r with
      title := jsTrim d.newReminder
      reminderTime := getNextReminderDate d.selectedHour d.selectedMinute env.nowMs
      «repeat» := d.repeatOption
      customRepeatMinutes := effectiveCustomRepeatMinutesOf d
      noteType := effectiveNoteTypeOf d
      notes := notesOf d
      todoItems := todoItemsOf d
      notificationId := some env.freshNotificationId }
  else r

/-- The fresh reminder appended by the create path
(`id = Date.now() + '-' + title`). -/
def createdReminder (env : Env) (d : Draft) : Reminder :=
  { id := toString env.nowMs ++ "-" ++ jsTrim d.newReminder
    title := jsTrim d.newReminder
    reminderTime := getNextReminderDate d.selectedHour d.selectedMinute env.nowMs
    «repeat» := d.repeatOption
    customRepeatMinutes := effectiveCustomRepeatMinutesOf d
    noteType := effectiveNoteTypeOf d
    notes := notesOf d
    todoItems := todoItemsOf d
    notificationId := some env.freshNotificationId
    completed := false }

/-- `existingReminder?.notificationId` cancellation on the edit path: the
previous notification is cancelled only when the edited reminder is found
and carries a notification id. -/
def cancelEffectsOf (reminders : List Reminder) (editingId : String) : List Effect :=
  match reminders.find? (fun r => r.id = editingId) with
  | some r =>
    match r.notificationId with
    | some nid => [.cancelNotification nid]
    | none => []
  | none => []

/-- `saveReminder`: validates the title, clamps a custom repeat below the
minimum (with an advisory alert), rejects a todo save with no items, then
either replaces the edited reminder in place (cancelling its previous
notification first) or appends a new one; in both surviving branches
exactly one trigger notification is created and its id stored on the
reminder.  Returns the new collection and the effect trace in source
order. -/
def saveReminder (env : Env) (d : Draft) (reminders : List Reminder) :
    List Reminder × List Effect :=
  if jsTrim d.newReminder = "" then (reminders, [])
  else if d.showNotes = true ∧ effectiveNoteTypeOf d = .todo ∧ todoItemsOf d = [] then
    (reminders, customAlertsOf d ++ [.alert "Add todo items"])
  else
    match d.editingReminderId with
    | some editingId =>
      (reminders.map (editedReminder env d editingId),
       customAlertsOf d ++ cancelEffectsOf reminders editingId ++
         [.createTriggerNotification env.freshNotificationId editingId
           (scheduledTrigger env d)])
    | none =>
      (reminders ++ [createdReminder env d],
       customAlertsOf d ++
         [.createTriggerNotification env.freshNotificationId
           (toString env.nowMs ++ "-" ++ jsTrim d.newReminder)
           (scheduledTrigger env d)])

/-- C3: the repeat policy fully determines the trigger shape: `once` is a
one-shot timestamp trigger with no repeat frequency, `daily` recurs with
period 1 day, `weekly` with period 7 days, and `custom` is an interval
trigger of the given custom minutes that carries no anchor instant (its
value is independent of the computed instant). -/
theorem buildTrigger_repeat_mapping (instant other : Nat) (c : Option Nat) (m : Nat) :
    buildTrigger .once instant c = .timestamp instant none true ∧
    buildTrigger .daily instant c = .timestamp instant (some .daily) true ∧
    freqPeriodDays .daily = 1 ∧
    buildTrigger .weekly instant c = .timestamp instant (some .weekly) true ∧
    freqPeriodDays .weekly = 7 ∧
    buildTrigger .custom instant (some m) = .interval m ∧
    buildTrigger .custom instant c = buildTrigger .custom other c :=
  ⟨rfl, rfl, rfl, rfl, rfl, rfl, rfl⟩

/-- C4: on any save with `repeat == custom` (title non-blank, so the save
path is entered), every reminder in the post-save collection is either an
untouched pre-existing one or carries
`customRepeatMinutes = max preSaveValue 30`, hence at least 30; and when
the pre-save value is below 30 the advisory alert is issued. -/
theorem saveReminder_custom_clamped (env : Env) (d : Draft) (rs : List Reminder)
    (hc : d.repeatOption = .custom) (ht : ¬ jsTrim d.newReminder = "") :
    (d.customRepeatMinutes < MIN_CUSTOM_REPEAT_MINUTES →
      Effect.alert "Custom repeat updated" ∈ (saveReminder env d rs).2) ∧
    MIN_CUSTOM_REPEAT_MINUTES ≤ max d.customRepeatMinutes MIN_CUSTOM_REPEAT_MINUTES ∧
    ∀ r ∈ (saveReminder env d rs).1, r ∈ rs ∨
      r.customRepeatMinutes = some (max d.customRepeatMinutes MIN_CUSTOM_REPEAT_MINUTES) := by
  have hAlert : d.customRepeatMinutes < MIN_CUSTOM_REPEAT_MINUTES →
      customAlertsOf d = [Effect.alert "Custom repeat updated"] := by
    intro hlt
    simp [customAlertsOf, hc, hlt]
  unfold saveReminder
  rw [if_neg ht]
  split
  · refine ⟨?_, Nat.le_max_right _ _, fun r hr => Or.inl hr⟩
    intro hlt
    simp [hAlert hlt]
  · split
    · rename_i editingId heq
      refine ⟨?_, Nat.le_max_right _ _, ?_⟩
      · intro hlt
        simp [hAlert hlt]
      · intro r hr
        rcases List.mem_map.mp hr with ⟨a, ha, ha2⟩
        unfold editedReminder at ha2
        by_cases hid : a.id = editingId
        · right
          rw [← ha2, if_pos hid]
          simp [effectiveCustomRepeatMinutesOf, hc]
        · left
          rwa [← ha2, if_neg hid]
    · refine ⟨?_, Nat.le_max_right _ _, ?_⟩
      · intro hlt
        simp [hAlert hlt]
      · intro r hr
        rcases List.mem_append.mp hr with h1 | h2
        · exact Or.inl h1
        · right
          rw [List.mem_singleton.mp h2]
          simp [createdReminder, effectiveCustomRepeatMinutesOf, hc]

/-- A concrete environment for witnesses. -/
def sampleEnv : Env :=
  { nowMs := 0
    freshNotificationId := "notif-new"
    freshId := "fresh-1"
    legacyItemId := fun s => s }

/-- A concrete custom-repeat draft (pre-save custom minutes 10 < 30). -/
def customDraft : Draft :=
  { newReminder := "water plants"
    selectedHour := 9
    selectedMinute := 30
    showNotes := false
    noteType := .text
    newNotes := ""
    draftTodoItems := []
    repeatOption := .custom
    customRepeatMinutes := 10
    editingReminderId := none }

/-- Witness for C4: saving a custom draft with pre-save value 10 yields the
advisory alert, and the appended reminder stores max 10 30 = 30. -/
theorem saveReminder_custom_clamped_witness :
    Effect.alert "Custom repeat updated" ∈ (saveReminder sampleEnv customDraft []).2 ∧
    MIN_CUSTOM_REPEAT_MINUTES ≤ max 10 MIN_CUSTOM_REPEAT_MINUTES ∧
    (createdReminder sampleEnv customDraft ∈ ([] : List Reminder) ∨
      (createdReminder sampleEnv customDraft).customRepeatMinutes =
        some (max 10 MIN_CUSTOM_REPEAT_MINUTES)) := by
  have h := saveReminder_custom_clamped sampleEnv customDraft []
    rfl (show ¬ (jsTrim "water plants" = "") by decide)
  exact ⟨h.1 (by decide), h.2.1,
    h.2.2 (createdReminder sampleEnv customDraft) (by decide)⟩

/-- C5: a successful edit-save of a reminder that is present with a live
notification id issues, after the optional advisory alert, exactly the
cancellation of the old id followed by exactly one creation; replaying the
effect trace on a live-set holding exactly the old id leaves exactly the
fresh id live (never zero, never two), and the edited reminder in the new
collection carries exactly that id. -/
theorem saveReminder_edit_single_notification
    (env : Env) (d : Draft) (rs : List Reminder) (editingId : String)
    (r0 : Reminder) (oldNid : String)
    (he : d.editingReminderId = some editingId)
    (hfind : rs.find? (fun r => r.id = editingId) = some r0)
    (hnid : r0.notificationId = some oldNid)
    (ht : ¬ jsTrim d.newReminder = "")
    (hval : ¬ (d.showNotes = true ∧ effectiveNoteTypeOf d = .todo ∧ todoItemsOf d = [])) :
    (saveReminder env d rs).2 =
      customAlertsOf d ++
        [Effect.cancelNotification oldNid,
         Effect.createTriggerNotification env.freshNotificationId editingId
           (scheduledTrigger env d)] ∧
    applyEffects [oldNid] (saveReminder env d rs).2 = [env.freshNotificationId] ∧
    (applyEffects [oldNid] (saveReminder env d rs).2).length = 1 ∧
    ∀ r ∈ (saveReminder env d rs).1, r.id = editingId →
      r.notificationId = some env.freshNotificationId := by
  unfold saveReminder
  rw [if_neg ht, if_neg hval]
  simp only [he]
  have hcancel : cancelEffectsOf rs editingId = [Effect.cancelNotification oldNid] := by
    simp only [cancelEffectsOf, hfind, hnid]
  rw [hcancel]
  refine ⟨by simp, ?_, ?_, ?_⟩
  · unfold customAlertsOf
    split <;> simp [applyEffects, applyEffect]
  · unfold customAlertsOf
    split <;> simp [applyEffects, applyEffect]
  · intro r hr hid
    rcases List.mem_map.mp hr with ⟨a, ha, ha2⟩
    unfold editedReminder at ha2
    by_cases haid : a.id = editingId
    · rw [← ha2, if_pos haid]
    · exfalso
      rw [← ha2, if_neg haid] at hid
      exact haid hid

/-- A concrete stored reminder with a live notification id, for witnesses. -/
def baseReminder : Reminder :=
  { id := "rem-1"
    title := "water plants"
    reminderTime := 0
    «repeat» := .once
    customRepeatMinutes := none
    noteType := .text
    notes := ""
    todoItems := []
    notificationId := some "notif-old"
    completed := false }

/-- A concrete edit draft targeting `baseReminder`. -/
def editDraft : Draft :=
  { newReminder := "water plants"
    selectedHour := 9
    selectedMinute := 30
    showNotes := false
    noteType := .text
    newNotes := ""
    draftTodoItems := []
    repeatOption := .once
    customRepeatMinutes := 30
    editingReminderId := some "rem-1" }

/-- Witness for C5: editing `baseReminder` cancels "notif-old" and creates
exactly one fresh notification; the replayed live set is exactly the fresh
id, and the edited entry carries it. -/
theorem saveReminder_edit_single_notification_witness :
    (saveReminder sampleEnv editDraft [baseReminder]).2 =
      customAlertsOf editDraft ++
        [Effect.cancelNotification "notif-old",
         Effect.createTriggerNotification sampleEnv.freshNotificationId "rem-1"
           (scheduledTrigger sampleEnv editDraft)] ∧
    applyEffects ["notif-old"] (saveReminder sampleEnv editDraft [baseReminder]).2 =
      [sampleEnv.freshNotificationId] ∧
    (applyEffects ["notif-old"] (saveReminder sampleEnv editDraft [baseReminder]).2).length = 1 ∧
    (editedReminder sampleEnv editDraft "rem-1" baseReminder).notificationId =
      some sampleEnv.freshNotificationId := by
  have h := saveReminder_edit_single_notification sampleEnv editDraft [baseReminder]
    "rem-1" baseReminder "notif-old" rfl (by decide) rfl
    (show ¬ (jsTrim "water plants" = "") by decide) (by decide)
  exact ⟨h.1, h.2.1, h.2.2.1,
    h.2.2.2 (editedReminder sampleEnv editDraft "rem-1" baseReminder)
      (by decide) (by decide)⟩

/-- A draft whose title is whitespace only and whose checklist is empty. -/
def blankTitleTodoDraft : Draft :=
  { newReminder := "   "
    selectedHour := 9
    selectedMinute := 30
    showNotes := true
    noteType := .todo
    newNotes := ""
    draftTodoItems := []
    repeatOption := .once
    customRepeatMinutes := 30
    editingReminderId := none }

/-- C6 counterexample: a save attempt of a checklist-type reminder with an
empty item list and a whitespace-only title is rejected with NO user
prompt at all (the blank-title early return wins), so the claim that every
empty-checklist save surfaces a prompt fails at this input.  The
collection is still unchanged. -/
theorem saveReminder_empty_todo_no_prompt_counterexample :
    saveReminder sampleEnv blankTitleTodoDraft [] = ([], []) := by
  decide

/-- C6 amended: a blank-title save is a silent no-op (collection unchanged,
no effects at all, hence no prompt); a save with a non-blank title and an
empty checklist (noteType todo with notes shown) leaves the collection
unchanged, surfaces the "Add todo items" prompt, and schedules nothing. -/
theorem saveReminder_rejects_invalid (env : Env) (d : Draft) (rs : List Reminder) :
    (jsTrim d.newReminder = "" → saveReminder env d rs = (rs, [])) ∧
    (¬ jsTrim d.newReminder = "" → d.showNotes = true → d.noteType = .todo →
      d.draftTodoItems = [] →
      (saveReminder env d rs).1 = rs ∧
      Effect.alert "Add todo items" ∈ (saveReminder env d rs).2 ∧
      ∀ e ∈ (saveReminder env d rs).2,
        ∀ n rid trig, e ≠ Effect.createTriggerNotification n rid trig) := by
  constructor
  · intro hblank
    unfold saveReminder
    rw [if_pos hblank]
  · intro ht hshow htodo hitems
    have hcond : d.showNotes = true ∧ effectiveNoteTypeOf d = .todo ∧ todoItemsOf d = [] := by
      simp [effectiveNoteTypeOf, todoItemsOf, hshow, htodo, hitems]
    unfold saveReminder
    rw [if_neg ht, if_pos hcond]
    refine ⟨rfl, by simp, ?_⟩
    intro e he n rid trig
    rcases List.mem_append.mp he with h1 | h2
    · unfold customAlertsOf at h1
      split at h1
      · rw [List.mem_singleton.mp h1]
        intro hcontra
        exact Effect.noConfusion hcontra
      · exact absurd h1 (List.not_mem_nil e)
    · rw [List.mem_singleton.mp h2]
      intro hcontra
      exact Effect.noConfusion hcontra

/-- A draft with a real title, checklist mode on, and zero items. -/
def emptyTodoDraft : Draft :=
  { newReminder := "groceries"
    selectedHour := 9
    selectedMinute := 30
    showNotes := true
    noteType := .todo
    newNotes := ""
    draftTodoItems := []
    repeatOption := .once
    customRepeatMinutes := 30
    editingReminderId := none }

/-- Witness for C6 amended: the blank-title draft is a silent no-op, and the
titled empty-checklist draft leaves the collection unchanged while raising
the prompt. -/
theorem saveReminder_rejects_invalid_witness :
    saveReminder sampleEnv blankTitleTodoDraft [] = ([], []) ∧
    (saveReminder sampleEnv emptyTodoDraft [baseReminder]).1 = [baseReminder] ∧
    Effect.alert "Add todo items" ∈ (saveReminder sampleEnv emptyTodoDraft [baseReminder]).2 := by
  refine ⟨(saveReminder_rejects_invalid sampleEnv blankTitleTodoDraft []).1 (by decide), ?_, ?_⟩
  · exact ((saveReminder_rejects_invalid sampleEnv emptyTodoDraft [baseReminder]).2
      (by decide) rfl rfl rfl).1
  · exact ((saveReminder_rejects_invalid sampleEnv emptyTodoDraft [baseReminder]).2
      (by decide) rfl rfl rfl).2.1

theorem map_eq_self_of_mem {α : Type} (f : α → α) :
    ∀ l : List α, (∀ x ∈ l, f x = x) → l.map f = l
  | [], _ => rfl
  | x :: xs, h => by
    rw [List.map_cons, h x (List.mem_cons_self x xs),
      map_eq_self_of_mem f xs (fun y hy => h y (List.mem_cons_of_mem x hy))]

/-- An edit draft whose target id is absent from the collection. -/
def ghostDraft : Draft :=
  { newReminder := "phantom"
    selectedHour := 8
    selectedMinute := 0
    showNotes := false
    noteType := .text
    newNotes := ""
    draftTodoItems := []
    repeatOption := .once
    customRepeatMinutes := 30
    editingReminderId := some "ghost" }

/-- C7 counterexample: an edit-save whose target id is unknown leaves the
collection unchanged, but it is NOT a no-op: a trigger notification
carrying the unknown id is still created, so the claim that the state is
completely unchanged fails at this input. -/
theorem saveReminder_unknown_id_counterexample :
    (saveReminder sampleEnv ghostDraft []).1 = [] ∧
    (saveReminder sampleEnv ghostDraft []).2 ≠ [] ∧
    Effect.createTriggerNotification sampleEnv.freshNotificationId "ghost"
      (scheduledTrigger sampleEnv ghostDraft) ∈ (saveReminder sampleEnv ghostDraft []).2 := by
  decide

/-- C7 amended: a valid edit-save whose target id matches no collection
entry raises no error and leaves the reminder collection unchanged, and it
cancels nothing — but it still creates exactly one orphaned trigger
notification carrying the unknown id. -/
theorem saveReminder_unknown_id_noop (env : Env) (d : Draft) (rs : List Reminder)
    (editingId : String)
    (he : d.editingReminderId = some editingId)
    (habs : ∀ r ∈ rs, ¬ r.id = editingId)
    (ht : ¬ jsTrim d.newReminder = "")
    (hval : ¬ (d.showNotes = true ∧ effectiveNoteTypeOf d = .todo ∧ todoItemsOf d = [])) :
    (saveReminder env d rs).1 = rs ∧
    (saveReminder env d rs).2 =
      customAlertsOf d ++
        [Effect.createTriggerNotification env.freshNotificationId editingId
          (scheduledTrigger env d)] ∧
    ∀ e ∈ (saveReminder env d rs).2, ∀ n, e ≠ Effect.cancelNotification n := by
  have hfind : rs.find? (fun r => r.id = editingId) = none := by
    rw [List.find?_eq_none]
    intro r hr
    simp [habs r hr]
  have hcancel : cancelEffectsOf rs editingId = [] := by
    simp only [cancelEffectsOf, hfind]
  unfold saveReminder
  rw [if_neg ht, if_neg hval]
  simp only [he, hcancel]
  refine ⟨?_, by simp, ?_⟩
  · refine map_eq_self_of_mem _ rs (fun r hr => ?_)
    unfold editedReminder
    rw [if_neg (habs r hr)]
  · intro e he2 n
    rcases List.mem_append.mp he2 with h1 | h2
    · rcases List.mem_append.mp h1 with h3 | h4
      · unfold customAlertsOf at h3
        split at h3
        · rw [List.mem_singleton.mp h3]
          intro hcontra
          exact Effect.noConfusion hcontra
        · exact absurd h3 (List.not_mem_nil e)
      · exact absurd h4 (List.not_mem_nil e)
    · rw [List.mem_singleton.mp h2]
      intro hcontra
      exact Effect.noConfusion hcontra

/-- Witness for C7 amended: editing the unknown id "ghost" over a
one-element collection leaves it unchanged and issues only the orphaned
create effect. -/
theorem saveReminder_unknown_id_noop_witness :
    (saveReminder sampleEnv ghostDraft [baseReminder]).1 = [baseReminder] ∧
    (saveReminder sampleEnv ghostDraft [baseReminder]).2 =
      customAlertsOf ghostDraft ++
        [Effect.createTriggerNotification sampleEnv.freshNotificationId "ghost"
          (scheduledTrigger sampleEnv ghostDraft)] := by
  have h := saveReminder_unknown_id_noop sampleEnv ghostDraft [baseReminder] "ghost"
    rfl (by decide) (show ¬ (jsTrim "phantom" = "") by decide) (by decide)
  exact ⟨h.1, h.2.1⟩

/-- `parseLegacyTodoItems(notes)`: split the free-text note on line breaks,
trim each line, drop blank lines, and build a TodoItem per remaining line
(fresh random id, `done: false`). -/
def parseLegacyTodoItems (env : Env) (notes : String) : List TodoItem :=
  (((jsSplitOnNewline notes).map jsTrim).filter (fun item => !(item == ""))).map
    (fun item => { id := env.legacyItemId item, text := item, done := false })

/-- A stored (persisted) reminder record as read back from storage:
`Partial<Reminder>`, every field possibly absent (JSON serialization of a
full record keeps present fields and drops `undefined` ones). -/
structure StoredReminder where
  id : Option String
  title : Option String
  reminderTime : Option Nat
  «repeat» : Option RepeatOption
  customRepeatMinutes : Option Nat
  noteType : Option NoteType
  notes : Option String
  todoItems : Option (List TodoItem)
  notificationId : Option String
  completed : Option Bool
deriving DecidableEq, Repr

/-- The per-record repair mapping applied by `loadReminders`: synthesize a
missing id, default the title, default `repeat` to `once` unless it is one
of daily/weekly/custom, keep `customRepeatMinutes` only when it is a
number, coerce `noteType` to todo/text, and for a todo-typed record
without a stored `todoItems` array migrate the legacy free-text note. -/
def repairReminder (env : Env) (s : StoredReminder) : Reminder :=
  { id := s.id.getD env.freshId
    title := s.title.getD "Reminder"
    reminderTime := s.reminderTime.getD env.nowMs
    «repeat» :=
      match s.«repeat» with
      | some .daily => .daily
      | some .weekly => .weekly
      | some .custom => .custom
      | _ => .once
    customRepeatMinutes := s.customRepeatMinutes
    noteType := if s.noteType = some .todo then .todo else .text
    notes := s.notes.getD ""
    todoItems :=
      if s.noteType = some .todo then
        match s.todoItems with
        | some items => items
        | none => parseLegacyTodoItems env (s.notes.getD "")
      else []
    notificationId := s.notificationId
    completed := s.completed.getD false }

/-- `loadReminders`: parse the stored blob and repair every record. -/
def loadReminders (env : Env) (stored : List StoredReminder) : List Reminder :=
  stored.map (repairReminder env)

/-- `JSON.stringify` of a full in-memory record: every present field is
kept, optional fields that are `undefined` are dropped. -/
def toStored (r : Reminder) : StoredReminder :=
  { id := some r.id
    title := some r.title
    reminderTime := some r.reminderTime
    «repeat» := some r.«repeat»
    customRepeatMinutes := r.customRepeatMinutes
    noteType := some r.noteType
    notes := some r.notes
    todoItems := some r.todoItems
    notificationId := r.notificationId
    completed := some r.completed }

/-- `AsyncStorage.setItem(REMINDERS_STORAGE_KEY, JSON.stringify(reminders))`:
the persisted form of the whole collection. -/
def saveCollection (rs : List Reminder) : List StoredReminder :=
  rs.map toStored

/-- The §3 data-model invariants of a well-formed reminder: non-empty
title, the inactive one of notes/todoItems cleared, a todo reminder has a
non-empty item list, `customRepeatMinutes` present iff the repeat is
custom, and at least 30 when present. -/
def wellFormedReminder (r : Reminder) : Prop :=
  ¬ r.title = "" ∧
  (r.noteType = .text → r.todoItems = []) ∧
  (r.noteType = .todo → ¬ r.todoItems = [] ∧ r.notes = "") ∧
  (r.«repeat» = .custom ↔ r.customRepeatMinutes.isSome = true) ∧
  MIN_CUSTOM_REPEAT_MINUTES ≤ r.customRepeatMinutes.getD MIN_CUSTOM_REPEAT_MINUTES

instance (r : Reminder) : Decidable (wellFormedReminder r) := by
  unfold wellFormedReminder
  infer_instance

/-- C8: loading what was saved returns any well-formed collection
unchanged. -/
theorem load_save_roundtrip (env : Env) (rs : List Reminder)
    (hwf : ∀ r ∈ rs, wellFormedReminder r) :
    loadReminders env (saveCollection rs) = rs := by
  unfold loadReminders saveCollection
  rw [List.map_map]
  refine map_eq_self_of_mem _ rs (fun r hr => ?_)
  have htext := (hwf r hr).2.1
  show repairReminder env (toStored r) = r
  obtain ⟨rid, rtitle, rtime, rrep, rcrm, rnt, rnotes, ritems, rnid, rcomp⟩ := r
  unfold repairReminder toStored
  cases rnt <;> cases rrep <;> simp_all

/-- A well-formed text-note reminder for the round-trip witness. -/
def wfTextReminder : Reminder :=
  { id := "a1"
    title := "pay rent"
    reminderTime := 1000
    «repeat» := .once
    customRepeatMinutes := none
    noteType := .text
    notes := "transfer before noon"
    todoItems := []
    notificationId := some "n1"
    completed := false }

/-- A well-formed custom-repeat todo reminder for the round-trip witness. -/
def wfTodoReminder : Reminder :=
  { id := "a2"
    title := "shopping"
    reminderTime := 2000
    «repeat» := .custom
    customRepeatMinutes := some 60
    noteType := .todo
    notes := ""
    todoItems := [{ id := "t1", text := "buy milk", done := false }]
    notificationId := none
    completed := true }

/-- Witness for C8: a concrete two-element well-formed collection survives
the save/load round trip unchanged. -/
theorem load_save_roundtrip_witness :
    loadReminders sampleEnv (saveCollection [wfTextReminder, wfTodoReminder]) =
      [wfTextReminder, wfTodoReminder] :=
  load_save_roundtrip sampleEnv [wfTextReminder, wfTodoReminder] (by decide)

theorem parseLegacyTodoItems_done (env : Env) (notes : String) :
    ∀ item ∈ parseLegacyTodoItems env notes, item.done = false := by
  intro item hmem
  rcases List.mem_map.mp hmem with ⟨t, ht, hEq⟩
  rw [← hEq]

theorem map_text_mk (env : Env) : ∀ l : List String,
    (l.map (fun item =>
      ({ id := env.legacyItemId item, text := item, done := false } : TodoItem))).map
        TodoItem.text = l
  | [] => rfl
  | x :: xs => by
    rw [List.map_cons, List.map_cons, map_text_mk env xs]

/-- The item texts produced by the legacy migration are exactly the trimmed
non-blank lines, in order. -/
theorem parseLegacyTodoItems_text (env : Env) (notes : String) :
    (parseLegacyTodoItems env notes).map TodoItem.text =
      ((jsSplitOnNewline notes).map jsTrim).filter (fun item => !(item == "")) := by
  unfold parseLegacyTodoItems
  exact map_text_mk env _

/-- C9: loading a stored todo-typed record with no `todoItems` array
migrates the free-text note: the resulting item texts are exactly the
trimmed non-blank lines of the note in their original order, every item
starts not-done, and the note "buy milk\nwalk dog" in particular yields
exactly the two items "buy milk" and "walk dog". -/
theorem legacy_todo_migration (env : Env) (s : StoredReminder) (n : String)
    (hnt : s.noteType = some .todo) (hitems : s.todoItems = none)
    (hnotes : s.notes = some n) :
    (repairReminder env s).todoItems.map TodoItem.text =
      ((jsSplitOnNewline n).map jsTrim).filter (fun item => !(item == "")) ∧
    (∀ item ∈ (repairReminder env s).todoItems, item.done = false) ∧
    (parseLegacyTodoItems env "buy milk\nwalk dog").map TodoItem.text =
      ["buy milk", "walk dog"] ∧
    ∀ item ∈ parseLegacyTodoItems env "buy milk\nwalk dog", item.done = false := by
  have hrepair : (repairReminder env s).todoItems = parseLegacyTodoItems env n := by
    unfold repairReminder
    simp [hnt, hitems, hnotes]
  refine ⟨?_, ?_, ?_, parseLegacyTodoItems_done env _⟩
  · rw [hrepair]
    exact parseLegacyTodoItems_text env n
  · rw [hrepair]
    exact parseLegacyTodoItems_done env n
  · exact (parseLegacyTodoItems_text env _).trans (by decide)

/-- The legacy stored record of the flagship example. -/
def legacyStored : StoredReminder :=
  { id := some "a3"
    title := some "chores"
    reminderTime := some 0
    «repeat» := some .once
    customRepeatMinutes := none
    noteType := some .todo
    notes := some "buy milk\nwalk dog"
    todoItems := none
    notificationId := none
    completed := some false }

/-- Witness for C9: the flagship example, loaded, carries exactly the item
texts "buy milk" and "walk dog". -/
theorem legacy_todo_migration_witness :
    (repairReminder sampleEnv legacyStored).todoItems.map TodoItem.text =
      ["buy milk", "walk dog"] :=
  ((legacy_todo_migration sampleEnv legacyStored "buy milk\nwalk dog"
      rfl rfl rfl).1).trans (by decide)

/-- C10: a stored record with noteType todo, no todoItems array, and a
missing, empty, or whitespace-only notes string (every newline-separated
segment trims to empty) loads as a todo-typed reminder with an empty item
list — a shape the save path rejects. -/
theorem load_todo_empty_items (env : Env) (s : StoredReminder)
    (hnt : s.noteType = some .todo) (hitems : s.todoItems = none)
    (hws : ∀ l ∈ jsSplitOnNewline (s.notes.getD ""), jsTrim l = "") :
    (repairReminder env s).noteType = .todo ∧
    (repairReminder env s).todoItems = [] := by
  have hnil : ((jsSplitOnNewline (s.notes.getD "")).map jsTrim).filter
      (fun item => !(item == "")) = [] := by
    rw [List.filter_eq_nil_iff]
    intro a ha
    rcases List.mem_map.mp ha with ⟨l, hl, hEq⟩
    rw [← hEq, hws l hl]
    decide
  constructor
  · unfold repairReminder
    simp [hnt]
  · unfold repairReminder
    simp only [hnt, hitems, reduceIte]
    show parseLegacyTodoItems env (s.notes.getD "") = []
    unfold parseLegacyTodoItems
    rw [hnil]
    rfl

/-- A stored todo record whose note is whitespace only. -/
def whitespaceStored : StoredReminder :=
  { id := some "a4"
    title := some "empty list"
    reminderTime := some 0
    «repeat» := some .once
    customRepeatMinutes := none
    noteType := some .todo
    notes := some "  \n  "
    todoItems := none
    notificationId := none
    completed := some false }

/-- Witness for C10: the whitespace-note todo record loads as todo-typed
with zero items. -/
theorem load_todo_empty_items_witness :
    (repairReminder sampleEnv whitespaceStored).noteType = .todo ∧
    (repairReminder sampleEnv whitespaceStored).todoItems = [] :=
  load_todo_empty_items sampleEnv whitespaceStored rfl rfl (by decide)

end ReminderApp
